import Mathlib

/-!
# A shallow embedding of the dgtlife:navigate screen router

This file models the client-side screen router of the repository
(`nav-common.js`, `nav-app.js`, `nav-browser.js`, `pattern.js`) and proves
properties of its operations: the `toScreen` transition engine, the screen
registry (`registerScreen`), the navigation stack (`back`, `resetNavStack`,
`getPreviousTitle`), the browser-history writer (`updateBrowserHistory`),
the access-control pipeline (`isScreenAllowed`), and the condition waiter
(`waitForCondition`).

Conventions of the embedding:
  - JavaScript objects with a fixed shape become Lean structures.
  - Fields whose value can be absent (`undefined`) become `Option`.
  - Functions stored in data (titles, access predicates, condition
    predicates, path generators) are represented by numeric ids evaluated
    through an explicit environment `Env`, so that every structure keeps
    decidable equality and every model is executable.
  - A thrown JavaScript error is represented by `none` / a `none` return
    component.
  - The reactive observables (`currentScreen`, `screenData`,
    `navStackLength`, `isLoading`, the per-helper `ReactiveDict` entries)
    are ordinary fields of the state record `NavState`.
  - The side-effect order of `toScreen` is recorded in an event trace;
    work performed by the `onRendered` callback (title resolution and the
    after hooks) is returned as a second, deferred trace.
-/

/-- Screen data is a plain JavaScript object.  The router itself only ever
reads its `params` property (in `updateBrowserHistory`); every other key is
opaque payload. -/
structure SData where
  params : Option (List (String × String))
  payload : List (String × String)
  deriving DecidableEq

/-- The value held by the `screenData` observable, or passed around in a
`screenData` slot.  `obj` is a plain object (possibly `\x7b\x7d`).  `rvar`
is the `screenData` `ReactiveVar` object itself: `toScreen` passes the
module-level variable `screenData` (not its value) to
`updateBrowserHistory` and `updateNavStack`, so that object can end up
stored in history entries and nav-stack entries.  Both constructors are
truthy in JavaScript. -/
inductive SDVal where
  | obj (d : SData)
  | rvar
  deriving DecidableEq

/-- The empty object, used when the observable is cleared with
`screenData.set(\x7b\x7d)`. -/
def SDVal.emptyObj : SDVal := .obj ⟨none, []⟩

/-- A screen title: a plain string or a title-producing function
(represented by its id, evaluated through `Env.titleFn`). -/
inductive TitleVal where
  | str (s : String)
  | fn (fid : Nat)
  deriving DecidableEq

/-- The `isAllowed` property: a plain boolean or a predicate function
(represented by its id, evaluated through `Env.allowFn`). -/
inductive AllowVal where
  | bool (b : Bool)
  | fn (fid : Nat)
  deriving DecidableEq

/-- One helper-to-template mapping entry of `contentHelperMap`. -/
structure HelperMapping where
  helper : String
  template : String
  deriving DecidableEq

/-- A registered screen object (`registerScreen` in `nav-common.js`). -/
structure Screen where
  name : String
  contentHelperMap : List HelperMapping
  title : TitleVal
  path : Option String
  pathMask : Option String
  pathPattern : Option Nat
  generatePath : Option Nat
  getDataFromParams : Option Nat
  isAllowed : AllowVal
  before : Bool
  after : Bool
  deriving DecidableEq

/-- An entry of the `pathLookup` array: a name paired with the id of the
registered RegExp pattern. -/
structure PathEntry where
  name : String
  pathPattern : Option Nat
  deriving DecidableEq

/-- One entry of the browser history, i.e. the state object passed to
`window.history.pushState` by `updateBrowserHistory`.  (The url argument
of `pushState` is host-level display state and is not modelled; no claim
refers to it.) -/
structure HistEntry where
  sid : Int
  name : String
  screenData : Option SDVal
  deriving DecidableEq

/-- One entry of the in-memory navigation stack used in app mode. -/
structure StackEntry where
  name : String
  title : String
  screenData : Option SDVal
  deriving DecidableEq

/-- The result of an individual condition predicate: JavaScript `false`,
`undefined`, or any other (truthy) value.  `evaluateConditions` treats
`false` and `undefined` as "not yet known". -/
inductive CondRes where
  | fls
  | undef
  | truthy
  deriving DecidableEq

/-- Whether a predicate result counts as satisfied:
`!((f() === false) || _.isUndefined(f()))`. -/
def condResOk : CondRes → Bool
  | .fls => false
  | .undef => false
  | .truthy => true

/-- The `config` object of `nav-common.js`, restricted to the properties
the modelled operations read. -/
structure Config where
  contentHelpers : List String
  supportUrls : Bool
  inAppModeOnIos : Bool
  inAppModeOnAndroid : Bool
  beforeScreens : Bool
  afterScreens : Bool
  conditionsToWaitFor : List (String × List Nat)
  deriving DecidableEq

/-- `inAppMode` from `nav-app.js`. -/
def inAppMode (cfg : Config) : Bool :=
  cfg.inAppModeOnIos || cfg.inAppModeOnAndroid

/-- The evaluation environment for the functions stored in screens and in
the condition table: title functions, access predicates, condition
predicates, path generators, and the identity provider
(`Meteor.userId()` / whether `Meteor.user()` is ready). -/
structure Env where
  titleFn : Nat → Option String
  allowFn : Nat → Bool
  condFn : Nat → CondRes
  genPath : Nat → String → List (String × String) → String
  userId : Option String
  userReady : Bool

/-- The mutable module-level state of the router: the registry, the
observables, the navigation stack and the browser history. -/
structure NavState where
  screens : List Screen
  pathLookup : List PathEntry
  currentScreen : Option String
  screenData : SDVal
  navStack : List StackEntry
  navStackLength : Nat
  isLoading : Bool
  helperVals : List (String × Option String)
  browserHistory : List HistEntry
  deriving DecidableEq

/-- `reactive.set(key, value)` on the helper `ReactiveDict`, as an
association-list update. -/
def setHelper (hv : List (String × Option String)) (k : String)
    (v : Option String) : List (String × Option String) :=
  if hv.any (fun p => p.1 == k) then
    hv.map (fun p => if p.1 == k then (k, v) else p)
  else hv ++ [(k, v)]

/-- Clearing every content-helper observable to null, the first step of a
`toScreen` transition. -/
def clearHelpers (helpers : List String)
    (hv : List (String × Option String)) : List (String × Option String) :=
  helpers.foldl (fun acc h => setHelper acc h none) hv

/-- The options object accepted by `toScreen`. -/
structure TSOptions where
  shouldUpdateBrowserHistory : Option Bool
  shouldUpdateNavStack : Option Bool
  screenData : Option SDVal
  deriving DecidableEq

/-- The empty options object. -/
def TSOptions.noneOpts : TSOptions := ⟨none, none, none⟩

/-- Observable side effects of a `toScreen` transition, in the order they
are performed. -/
inductive Ev where
  | clearHelper (h : String)
  | clearScreenData
  | globalBefore
  | setScreenData (v : SDVal)
  | screenBefore
  | mapHelper (h t : String)
  | setCurrentScreen (n : String)
  | pushHistory
  | pushNavStack
  | setTitle (t : String)
  | screenAfter
  | globalAfter
  deriving DecidableEq

/-- The outcome of a `toScreen` call: the return value (`none` when the
call throws), the state after the synchronous part, the synchronous event
trace, and the deferred trace run by the `onRendered` callback once
rendering completes. -/
structure TSOut where
  ret : Option Bool
  st : NavState
  trace : List Ev
  render : List Ev
  deriving DecidableEq

/-- `updateBrowserHistory` from `nav-browser.js`.  The sid of the pushed
state object is 1 when `window.history.state` is null and one more than
the previous sid otherwise; the screenData key is added whenever the
`screenData` argument is truthy (any object, including the `ReactiveVar`).
The `params` read (`screenData.params`) only chooses the url passed to
`pushState`, which is not part of the modelled state; note that the
`ReactiveVar` has no `params` property, so it yields `undefined`. -/
def updateBrowserHistory (name : String) (sd : Option SDVal)
    (st : NavState) : NavState :=
  let sid : Int :=
    match st.browserHistory.getLast? with
    | none => 1
    | some prev => 1 + prev.sid
  let screenState : HistEntry := { sid := sid, name := name, screenData := sd }
  { st with browserHistory := st.browserHistory ++ [screenState] }

/-- `updateNavStack` from `nav-app.js`.  In app mode it pushes a screen
state (with the screenData key added when the argument is truthy) onto the
nav stack and republishes the stack length; a function-valued title is
computed inside an autorun whose first run is synchronous, so the push
happens in this step exactly when the title function already returns a
truthy value.  Returns the new state and the events emitted. -/
def updateNavStack (cfg : Config) (env : Env) (name : String)
    (title : TitleVal) (sd : Option SDVal) (st : NavState) :
    NavState × List Ev :=
  if inAppMode cfg then
    let push : String → NavState × List Ev := fun t =>
      let entry : StackEntry := { name := name, title := t, screenData := sd }
      ({ st with
          navStack := st.navStack ++ [entry]
          navStackLength := (st.navStack ++ [entry]).length },
       [Ev.pushNavStack])
    match title with
    | .str t => push t
    | .fn fid =>
      match env.titleFn fid with
      | some t => push t
      | none => (st, [])
  else (st, [])

/-- `toScreen` from `nav-common.js`.  The body follows the source line by
line: check the name, look the screen up, return false when it is already
current, clear the content-helper observables, clear the screen-data
observable, run the global before hook, set the screen data supplied in
the options, run the screen before hook, register the `onRendered`
callback (the deferred `render` trace), map the content helpers, set the
current-screen observable, and finally update the browser history and the
navigation stack unless suppressed.  Accessing `contentHelperMap[0]` of an
empty mapping throws.  Note that the arguments passed on to
`updateBrowserHistory` and `updateNavStack` include the `screenData`
`ReactiveVar` itself (`SDVal.rvar`), not the supplied data. -/
def toScreen (cfg : Config) (env : Env) (st : NavState) (name : String)
    (opts : Option TSOptions) : TSOut :=
  if name = "" then ⟨none, st, [], []⟩
  else
    match st.screens.find? (fun s => s.name == name) with
    | none => ⟨none, st, [], []⟩
    | some screen =>
      if st.currentScreen = some name then ⟨some false, st, [], []⟩
      else
        let hv := clearHelpers cfg.contentHelpers st.helperVals
        let sd := SDVal.emptyObj
        let suppliedData := opts.bind (fun o => o.screenData)
        let sd := suppliedData.getD sd
        let tr :=
          cfg.contentHelpers.map Ev.clearHelper
          ++ [Ev.clearScreenData]
          ++ (if cfg.beforeScreens then [Ev.globalBefore] else [])
          ++ (match suppliedData with
              | some v => [Ev.setScreenData v]
              | none => [])
          ++ (if screen.before then [Ev.screenBefore] else [])
        match screen.contentHelperMap with
        | [] =>
          -- `Template[screen.contentHelperMap[0].template]` throws here,
          -- after the before hooks have already run.
          ⟨none, { st with helperVals := hv, screenData := sd }, tr, []⟩
        | m0 :: ms =>
          let render :=
            (match screen.title with
             | .str t => [Ev.setTitle t]
             | .fn fid =>
               match env.titleFn fid with
               | some t => [Ev.setTitle t]
               | none => [])
            ++ (if screen.after then [Ev.screenAfter] else [])
            ++ (if cfg.afterScreens then [Ev.globalAfter] else [])
          let hv := (m0 :: ms).foldl
            (fun acc m => setHelper acc m.helper (some m.template)) hv
          let tr := tr ++ (m0 :: ms).map (fun m => Ev.mapHelper m.helper m.template)
          let tr := tr ++ [Ev.setCurrentScreen name]
          let st1 := { st with
            helperVals := hv
            screenData := sd
            currentScreen := some name }
          let shouldUBH :=
            (opts.bind (fun o => o.shouldUpdateBrowserHistory)).getD true
          let st2 :=
            if shouldUBH then updateBrowserHistory name (some SDVal.rvar) st1
            else st1
          let tr := tr ++ (if shouldUBH then [Ev.pushHistory] else [])
          let shouldUNS :=
            (opts.bind (fun o => o.shouldUpdateNavStack)).getD true
          let stEvs :=
            if shouldUNS then
              updateNavStack cfg env name screen.title (some SDVal.rvar) st2
            else (st2, [])
          ⟨some true, stEvs.1, tr ++ stEvs.2, render⟩

/-- `back` from `nav-common.js`.  In browser mode it delegates to
`window.history.back()` (a host-driven popstate, not modelled further) and
returns true.  In app mode it refuses to pop a single-entry stack
(returns false), otherwise pops one entry, republishes the stack length
and re-enters the new top screen with `shouldUpdateNavStack: false`,
attaching the screenData stored in that entry when it is truthy.
Popping an empty stack leaves `previousScreen` undefined and the
`previousScreen.name` access throws. -/
def back (cfg : Config) (env : Env) (st : NavState) : Option Bool × NavState :=
  if cfg.supportUrls then (some true, st)
  else if st.navStack.length = 1 then (some false, st)
  else
    let stack1 := st.navStack.dropLast
    let st1 := { st with navStack := stack1, navStackLength := stack1.length }
    match stack1.getLast? with
    | none => (none, st1)
    | some prev =>
      let options : TSOptions :=
        { shouldUpdateBrowserHistory := none
          shouldUpdateNavStack := some false
          screenData := prev.screenData }
      let out := toScreen cfg env st1 prev.name (some options)
      (out.ret.map (fun _ => true), out.st)

/-- `resetNavStack` from `nav-app.js`: in app mode, truncate the nav stack
to length 0 (without touching the `navStackLength` observable) and call
`toScreen(name)`.  Outside app mode it does nothing. -/
def resetNavStack (cfg : Config) (env : Env) (name : String)
    (st : NavState) : Option NavState :=
  if inAppMode cfg then
    let st1 := { st with navStack := ([] : List StackEntry) }
    let out := toScreen cfg env st1 name none
    match out.ret with
    | none => none
    | some _ => some out.st
  else some st

/-- The value returned by `getPreviousTitle`: a title string, or the
literal `false` when there is no previous screen. -/
inductive PrevTitleResult where
  | title (t : String)
  | noPrevious
  deriving DecidableEq

/-- `getPreviousTitle` from `nav-common.js`.  It reads the
`navStackLength` observable (not `navStack.length`) and, in app mode with
an observable value above one, returns `navStack[stackLength - 2].title`;
reading past the end of the actual stack throws (`none`). -/
def getPreviousTitle (cfg : Config) (st : NavState) :
    Option PrevTitleResult :=
  if inAppMode cfg then
    let stackLength := st.navStackLength
    if stackLength > 1 then
      match st.navStack.get? (stackLength - 2) with
      | some entry => some (.title entry.title)
      | none => none
    else some .noPrevious
  else some .noPrevious

/-!
## Screen registration

`registerScreen(name, options)` validates its inputs with `check` and the
`Pattern` match patterns of `pattern.js`.  A JavaScript value supplied for
an options field is modelled by `JField`: the key can be absent
(`undefined`), carry a value of the type the corresponding pattern
accepts, or carry a value of a type the pattern rejects. -/

/-- A field of the `registerScreen` options object: absent, a value of
the expected type, or a value of a type rejected by the field's match
pattern. -/
inductive JField (α : Type) where
  | absent
  | val (a : α)
  | wrongType
  deriving DecidableEq

/-- The `name` argument of `registerScreen` as a JavaScript value: a
string, or a value of some other type. -/
inductive NameArg where
  | str (s : String)
  | notStr
  deriving DecidableEq

/-- Whether the key is supplied at all (with a value of any type). -/
def jfPresent {α : Type} : JField α → Bool
  | .absent => false
  | _ => true

/-- `check(field, Match.Optional(pattern))` for a field whose accepted
values (RegExp objects, functions, booleans-or-functions) are always
truthy: absent or well typed. -/
def jfOptOk {α : Type} : JField α → Bool
  | .wrongType => false
  | _ => true

/-- `check(field, Match.Optional(Pattern.nonEmptyString))`: absent, or a
string of positive length. -/
def jfOptStrOk : JField String → Bool
  | .absent => true
  | .val s => !(s == "")
  | .wrongType => false

/-- JavaScript truthiness of a string-valued field (the empty string is
falsy). -/
def jfStrTruthy : JField String → Bool
  | .val s => !(s == "")
  | _ => false

/-- JavaScript truthiness of a field holding a RegExp or function (always
truthy when present and well typed; a wrong-typed value never reaches the
truthiness tests because the `check` calls run first). -/
def jfTruthy {α : Type} : JField α → Bool
  | .val _ => true
  | _ => false

/-- The value of an optional field as an `Option`. -/
def jfToOption {α : Type} : JField α → Option α
  | .val a => some a
  | _ => none

/-- The options object accepted by `registerScreen`. -/
structure RegOptions where
  contentHelperMap : JField (List HelperMapping)
  title : JField TitleVal
  path : JField String
  pathMask : JField String
  pathPattern : JField Nat
  generatePath : JField Nat
  getDataFromParams : JField Nat
  isAllowed : JField AllowVal
  before : JField Nat
  after : JField Nat
  deriving DecidableEq

/-- `check(options, Match.ObjectIncluding(...))` on the required
`contentHelperMap` field (`[Object]`: any array of objects). -/
def chmOk : JField (List HelperMapping) → Bool
  | .val _ => true
  | _ => false

/-- The required `title` field must match
`Pattern.nonEmptyStringOrFunction`. -/
def titleOk : JField TitleVal → Bool
  | .val (.str s) => !(s == "")
  | .val (.fn _) => true
  | _ => false

/-- The screen object built by a successful registration.  The source
first sets `isAllowed` to `options.isAllowed || true` and then overlays
every supplied option key with `_.extend`, so a supplied `isAllowed`
(including the boolean `false`) wins and only an omitted one is defaulted
to `true`.  (The wrong-typed cases are unreachable: the `check` calls
throw first.) -/
def mkScreen (n : String) (o : RegOptions) : Screen :=
  { name := n
    contentHelperMap := match o.contentHelperMap with
      | .val l => l
      | _ => []
    title := match o.title with
      | .val t => t
      | _ => TitleVal.str ""
    path := jfToOption o.path
    pathMask := jfToOption o.pathMask
    pathPattern := jfToOption o.pathPattern
    generatePath := jfToOption o.generatePath
    getDataFromParams := jfToOption o.getDataFromParams
    isAllowed := match o.isAllowed with
      | .val a => a
      | _ => AllowVal.bool true
    before := jfPresent o.before
    after := jfPresent o.after }

/-- The conjunction of the eight `check(options.x, Match.Optional(...))`
calls of `registerScreen` (`path`, `pathMask`, `pathPattern`,
`generatePath`, `getDataFromParams`, `isAllowed`, `before`, `after`):
each optional field must be absent or of its expected type (`path` and
`pathMask` must additionally be non-empty strings). -/
def optFieldsOk (o : RegOptions) : Bool :=
  jfOptStrOk o.path && jfOptStrOk o.pathMask && jfOptOk o.pathPattern
  && jfOptOk o.generatePath && jfOptOk o.getDataFromParams
  && jfOptOk o.isAllowed && jfOptOk o.before && jfOptOk o.after

/-- The disjunction of every condition under which `registerScreen`
throws, in source order: missing options; `check(name, nonEmptyString)`;
the `check` calls on the options fields; the combined path conditions
(`path && !pathPattern`, `pathMask && !pathPattern`,
`pathMask && !generatePath`, `pathMask && !getDataFromParams`); and
finally the duplicate-name test.  Each throw aborts before any screen is
stored, so the overall effect of the sequential throws is this single
Boolean. -/
def regChecksFail (screens : List Screen) (name : NameArg)
    (opts : Option RegOptions) : Bool :=
  match opts with
  | none => true
  | some o =>
    match name with
    | .notStr => true
    | .str n =>
      (n == "")
      || !(chmOk o.contentHelperMap)
      || !(titleOk o.title)
      || !(optFieldsOk o)
      || (jfStrTruthy o.path && !(jfTruthy o.pathPattern))
      || (jfStrTruthy o.pathMask && !(jfTruthy o.pathPattern))
      || (jfStrTruthy o.pathMask && !(jfTruthy o.generatePath))
      || (jfStrTruthy o.pathMask && !(jfTruthy o.getDataFromParams))
      || screens.any (fun s => s.name == n)

/-- `registerScreen` from `nav-common.js`: `none` when any check throws,
otherwise the new `screens` array (with the built screen appended) and
the new `pathLookup` array (with a routing entry appended exactly when
`options.path || options.pathMask` is truthy).  The `registerNavLink`
side effect is a UI event-map registration on the rendering collaborator
and is outside the model. -/
def registerScreen (screens : List Screen) (pathLookup : List PathEntry)
    (name : NameArg) (opts : Option RegOptions) :
    Option (List Screen × List PathEntry) :=
  if regChecksFail screens name opts then none
  else
    match opts, name with
    | some o, .str n =>
      let screen := mkScreen n o
      let pl :=
        if jfStrTruthy o.path || jfStrTruthy o.pathMask then
          pathLookup ++ [⟨n, jfToOption o.pathPattern⟩]
        else pathLookup
      some (screens ++ [screen], pl)
    | _, _ => none

/-!
## The condition waiter

`waitForCondition(condition, func, showLoading, context)` checks its
arguments, resolves the condition (a function used directly, or a
condition id looked up in `config.conditionsToWaitFor`), and then starts
a `Tracker.autorun`.  The autorun body runs once synchronously and once
more on every reactive recomputation; the model drives it with an
explicit list of valuations (one per run) assigning a `CondRes` to each
predicate id. -/

/-- The `condition` argument as a JavaScript value: a function, a string
(a condition id), or a value of another type. -/
inductive WCondArg where
  | fnCond (fid : Nat)
  | condId (s : String)
  | badArg
  deriving DecidableEq

/-- The observable outcome of the autorun started by `waitForCondition`:
for each invocation of `func`, the this-context it was invoked with;
whether a TypeError was raised after an invocation (by calling `.bind` on
the value `func` returned); whether the computation is stopped; and the
last value written to the `isLoading` observable, if any. -/
structure WCOutcome where
  funcCalls : List (Option Nat)
  lateError : Bool
  stopped : Bool
  loadingAtEnd : Option Bool
  deriving DecidableEq

/-- One run of the autorun body of `waitForCondition`.  When the
condition is unsatisfied it (optionally) shows loading and waits for the
next recomputation.  When it is satisfied it clears loading and invokes
`func`: with no context, a bare `func()`; with a context, the source
performs `func().bind(context)` — a bare `func()` call followed by
`.bind` on its RETURN VALUE, so the context is never passed, and a
TypeError is raised when that return value is not a function.  The
computation does not run again after the satisfying run (on a normal run
through `comp.stop()`; a first-run exception also stops the
computation). -/
def autorunStep (showLoading : Bool) (context : Option Nat)
    (funcRetFn : Bool) (sat : Bool) (o : WCOutcome) : WCOutcome :=
  if o.stopped then o
  else if !sat then
    if showLoading then { o with loadingAtEnd := some true } else o
  else
    let o1 := if showLoading then { o with loadingAtEnd := some false } else o
    match context with
    | none =>
      { o1 with funcCalls := o1.funcCalls ++ [none], stopped := true }
    | some _ =>
      if funcRetFn then
        { o1 with funcCalls := o1.funcCalls ++ [none], stopped := true }
      else
        { o1 with
            funcCalls := o1.funcCalls ++ [none]
            lateError := true
            stopped := true }

/-- The autorun: run the body once per valuation, in order. -/
def autorunLoop (showLoading : Bool) (context : Option Nat)
    (funcRetFn : Bool) (satF : (Nat → CondRes) → Bool) :
    List (Nat → CondRes) → WCOutcome → WCOutcome
  | [], o => o
  | r :: rs, o =>
    autorunLoop showLoading context funcRetFn satF rs
      (autorunStep showLoading context funcRetFn (satF r) o)

/-- `evaluateConditions` inside `waitForCondition`: every predicate in the
list registered under the condition id must return a value that is
neither `false` nor `undefined`. -/
def evalConditionList (fids : List Nat) (val : Nat → CondRes) : Bool :=
  fids.all (fun fid => condResOk (val fid))

/-- `waitForCondition` from `nav-common.js`.  `funcGiven` and
`funcRetFn` describe the `func` argument (whether a function was supplied,
and whether the value it returns is itself a function); `rounds` drives
the autorun.  Returns `none` when one of the `check` calls throws (in
particular whenever `showLoading` is not a Boolean — which is how every
internal caller of the router invokes it, omitting the argument) or when
the condition id is unknown. -/
def waitForCondition (condTable : List (String × List Nat))
    (cond : WCondArg) (funcGiven : Bool) (funcRetFn : Bool)
    (showLoading : Option Bool) (context : Option Nat)
    (rounds : List (Nat → CondRes)) : Option WCOutcome :=
  -- check(condition, Pattern.nonEmptyStringOrFunction)
  match cond with
  | .badArg => none
  | .condId "" => none
  | _ =>
    -- check(func, Pattern.function)
    if !funcGiven then none
    else
      -- check(showLoading, Boolean): throws on `undefined`
      match showLoading with
      | none => none
      | some sl =>
        match cond with
        | .fnCond fid =>
          some (autorunLoop sl context funcRetFn
            (fun val => condResOk (val fid)) rounds ⟨[], false, false, none⟩)
        | .condId cid =>
          match condTable.find? (fun p => p.1 == cid) with
          | some entry =>
            some (autorunLoop sl context funcRetFn
              (evalConditionList entry.2) rounds ⟨[], false, false, none⟩)
          | none => none
        | .badArg => none

/-!
## The browser-mode access-control pipeline

`isScreenAllowed`, `applyAccessControl` and
`loadTargetScreenInBrowserMode` from `nav-browser.js`.  The internal
`waitForCondition` calls in this pipeline pass only two arguments, so the
`check(showLoading, Boolean)` inside `waitForCondition` throws before any
condition is consulted; the model routes those calls through
`waitShowLoadingOk` to keep the source structure visible. -/

/-- Whether the `showLoading` argument survives `check(showLoading,
Boolean)`. -/
def waitShowLoadingOk : Option Bool → Bool
  | some _ => true
  | none => false

/-- Whether a condition id is present in `config.conditionsToWaitFor`
(`_.has`). -/
def hasCond (cfg : Config) (cid : String) : Bool :=
  (cfg.conditionsToWaitFor.find? (fun p => p.1 == cid)).isSome

/-- The aggregate value of a named condition under the current
environment. -/
def condIdSatisfied (cfg : Config) (env : Env) (cid : String) : Bool :=
  evalConditionList
    (((cfg.conditionsToWaitFor.find? (fun p => p.1 == cid)).map
      (fun p => p.2)).getD []) env.condFn

/-- The screen spec object flowing through the browser-mode pipeline
(`name`, optionally `isAllowed`, optionally resolved `screenData`; the
`getDataFromParams` key is removed before `isScreenAllowed` runs). -/
structure SSpec where
  name : String
  isAllowed : Option AllowVal
  screenData : Option SDVal
  deriving DecidableEq

/-- `loadTargetScreenInBrowserMode`: with an existing history state naming
the requested screen this is a reload (wait on `okToReload`, then
transition without re-pushing history); with a state naming another
screen, transition directly; with no state (a first load), wait on
`okToLoad` and transition.  Both waiting branches call
`waitForCondition` with the `showLoading` argument omitted, so they throw
(`none`) before the condition is consulted. -/
def loadTargetScreenInBrowserMode (cfg : Config) (env : Env)
    (st : NavState) (spec : SSpec) : Option NavState :=
  let name := spec.name
  let options : TSOptions :=
    { shouldUpdateBrowserHistory := none
      shouldUpdateNavStack := none
      screenData := spec.screenData }
  match st.browserHistory.getLast? with
  | some hstate =>
    if name == hstate.name then
      if !(waitShowLoadingOk none) then none
      else if hasCond cfg "okToReload" then
        if condIdSatisfied cfg env "okToReload" then
          let out := toScreen cfg env st name
            (some { options with shouldUpdateBrowserHistory := some false })
          match out.ret with
          | none => none
          | some _ => some out.st
        else some st
      else none
    else
      let out := toScreen cfg env st name (some options)
      match out.ret with
      | none => none
      | some _ => some out.st
  | none =>
    if !(waitShowLoadingOk none) then none
    else if hasCond cfg "okToLoad" then
      if condIdSatisfied cfg env "okToLoad" then
        let out := toScreen cfg env st name (some options)
        match out.ret with
        | none => none
        | some _ => some out.st
      else some st
    else none

/-- `applyAccessControl`: load the target screen when allowed, otherwise
go to the fixed "Access Denied" screen. -/
def applyAccessControl (cfg : Config) (env : Env) (st : NavState)
    (spec : SSpec) (isAllowed : Bool) : Option NavState :=
  if isAllowed then loadTargetScreenInBrowserMode cfg env st spec
  else
    let out := toScreen cfg env st "Access Denied" none
    match out.ret with
    | none => none
    | some _ => some out.st

/-- `isScreenAllowed`: evaluate a function-valued `isAllowed` (waiting for
the user object in an identified session that is not ready yet — a wait
whose internal `waitForCondition` call also omits `showLoading` and
throws) or apply the boolean directly.  An absent `isAllowed` key is
`undefined`, which is falsy. -/
def isScreenAllowed (cfg : Config) (env : Env) (st : NavState)
    (spec : SSpec) : Option NavState :=
  let screen : SSpec := { spec with isAllowed := none }
  match spec.isAllowed with
  | some (.fn fid) =>
    if env.userId.isSome then
      if env.userReady then applyAccessControl cfg env st screen (env.allowFn fid)
      else if !(waitShowLoadingOk none) then none
      else applyAccessControl cfg env st screen (env.allowFn fid)
    else applyAccessControl cfg env st screen (env.allowFn fid)
  | some (.bool b) => applyAccessControl cfg env st screen b
  | none => applyAccessControl cfg env st screen false

/-!
## Concrete fixtures

A small concrete environment, configuration, registry and state used by
the witness and counterexample theorems below. -/

/-- A concrete environment: every title function returns "T", every
access predicate returns false, every condition predicate is truthy, the
session is anonymous. -/
def env0 : Env :=
  { titleFn := fun _ => some "T"
    allowFn := fun _ => false
    condFn := fun _ => CondRes.truthy
    genPath := fun _ m _ => m
    userId := none
    userReady := false }

/-- A concrete screen with both hooks. -/
def screenA : Screen :=
  { name := "A", contentHelperMap := [⟨"content", "a_tpl"⟩]
    title := TitleVal.str "A title", path := some "/a", pathMask := none
    pathPattern := some 1, generatePath := none, getDataFromParams := none
    isAllowed := AllowVal.bool true, before := true, after := true }

/-- A concrete screen without hooks. -/
def screenB : Screen :=
  { name := "B", contentHelperMap := [⟨"content", "b_tpl"⟩]
    title := TitleVal.str "B title", path := some "/b", pathMask := none
    pathPattern := some 2, generatePath := none, getDataFromParams := none
    isAllowed := AllowVal.bool true, before := false, after := false }

/-- A concrete browser-mode configuration with both global hooks. -/
def cfg0 : Config :=
  { contentHelpers := ["content"], supportUrls := true
    inAppModeOnIos := false, inAppModeOnAndroid := false
    beforeScreens := true, afterScreens := true
    conditionsToWaitFor := [("okToLoad", [0]), ("okToReload", [1])] }

/-- A concrete state currently showing screen "B". -/
def st0 : NavState :=
  { screens := [screenA, screenB], pathLookup := []
    currentScreen := some "B", screenData := SDVal.emptyObj
    navStack := [], navStackLength := 0, isLoading := false
    helperVals := [], browserHistory := [] }

/-- A concrete screen-data object. -/
def sd0 : SDVal := SDVal.obj ⟨none, [("k", "v")]⟩

/-- Options supplying `sd0` as screen data. -/
def opts0 : TSOptions := ⟨none, none, some sd0⟩

/-!
## Helper lemmas -/

/-- The events emitted by `updateNavStack` depend only on the mode, the
title and the environment. -/
def navStackEvs (cfg : Config) (env : Env) (title : TitleVal) : List Ev :=
  if inAppMode cfg then
    match title with
    | .str _ => [Ev.pushNavStack]
    | .fn fid =>
      match env.titleFn fid with
      | some _ => [Ev.pushNavStack]
      | none => []
  else []

/-- The event component of `updateNavStack` is state-independent. -/
theorem updateNavStack_snd (cfg : Config) (env : Env) (name : String)
    (title : TitleVal) (sd : Option SDVal) (st : NavState) :
    (updateNavStack cfg env name title sd st).2 = navStackEvs cfg env title := by
  unfold updateNavStack navStackEvs
  by_cases h : inAppMode cfg
  · rw [if_pos h, if_pos h]
    cases title with
    | str t => rfl
    | fn fid => cases h2 : env.titleFn fid <;> simp [h2]
  · rw [if_neg h, if_neg h]

/-!
## Claims about the transition engine -/

/-- C1 (counterexample): the claim states that `toScreen` runs the
screen's own before hook and only then sets the screen-data observable.
At the concrete input below, the source's trace sets the screen-data
observable strictly before the screen before hook, refuting the claimed
order. -/
theorem c1_claim_counterexample :
    (Ev.setScreenData sd0) ∈ (toScreen cfg0 env0 st0 "A" (some opts0)).trace ∧
    Ev.screenBefore ∈ (toScreen cfg0 env0 st0 "A" (some opts0)).trace ∧
    (toScreen cfg0 env0 st0 "A" (some opts0)).trace.indexOf
        (Ev.setScreenData sd0) <
      (toScreen cfg0 env0 st0 "A" (some opts0)).trace.indexOf
        Ev.screenBefore := by
  decide

/-- C1 (amended): for every registered screen name distinct from the
current screen, `toScreen(name, options)` performs its effects in this
order: clear every content-helper observable, clear the screen-data
observable, run the global before hook, set the screen-data observable if
`options.screenData` was supplied, run the screen's own before hook, map
each content helper to its assigned content, set the current-screen
observable to the name, then update browser history and the navigation
stack unless suppressed; title resolution and the screen after hook
followed by the global after hook run only after rendering completes (the
deferred trace). -/
theorem c1_amended_order (cfg : Config) (env : Env) (st : NavState)
    (name : String) (opts : Option TSOptions) (scr : Screen)
    (m0 : HelperMapping) (ms : List HelperMapping)
    (hname : ¬(name = ""))
    (hfind : st.screens.find? (fun s => s.name == name) = some scr)
    (hcur : ¬(st.currentScreen = some name))
    (hchm : scr.contentHelperMap = m0 :: ms) :
    (toScreen cfg env st name opts).trace =
      cfg.contentHelpers.map Ev.clearHelper
      ++ [Ev.clearScreenData]
      ++ (if cfg.beforeScreens then [Ev.globalBefore] else [])
      ++ (match opts.bind (fun o => o.screenData) with
          | some v => [Ev.setScreenData v]
          | none => [])
      ++ (if scr.before then [Ev.screenBefore] else [])
      ++ (m0 :: ms).map (fun m => Ev.mapHelper m.helper m.template)
      ++ [Ev.setCurrentScreen name]
      ++ (if (opts.bind (fun o => o.shouldUpdateBrowserHistory)).getD true
            then [Ev.pushHistory] else [])
      ++ (if (opts.bind (fun o => o.shouldUpdateNavStack)).getD true
            then navStackEvs cfg env scr.title else [])
    ∧ (toScreen cfg env st name opts).render =
      (match scr.title with
       | .str t => [Ev.setTitle t]
       | .fn fid =>
         match env.titleFn fid with
         | some t => [Ev.setTitle t]
         | none => [])
      ++ (if scr.after then [Ev.screenAfter] else [])
      ++ (if cfg.afterScreens then [Ev.globalAfter] else []) := by
  unfold toScreen
  rw [if_neg hname, hfind]
  dsimp only
  rw [if_neg hcur, hchm]
  dsimp only
  simp only [updateNavStack_snd, apply_ite Prod.snd, List.append_assoc]
  constructor
  · by_cases h : (opts.bind (fun o => o.shouldUpdateNavStack)).getD true <;>
      simp [h, List.append_assoc]
  · trivial

/-- Witness for `c1_amended_order` at a concrete input. -/
theorem c1_amended_order_witness :
    (¬("A" = "") ∧
      st0.screens.find? (fun s => s.name == "A") = some screenA ∧
      ¬(st0.currentScreen = some "A") ∧
      screenA.contentHelperMap = (⟨"content", "a_tpl"⟩ : HelperMapping) :: []) ∧
    ((toScreen cfg0 env0 st0 "A" (some opts0)).trace =
      cfg0.contentHelpers.map Ev.clearHelper
      ++ [Ev.clearScreenData]
      ++ (if cfg0.beforeScreens then [Ev.globalBefore] else [])
      ++ (match (some opts0).bind (fun o => o.screenData) with
          | some v => [Ev.setScreenData v]
          | none => [])
      ++ (if screenA.before then [Ev.screenBefore] else [])
      ++ ((⟨"content", "a_tpl"⟩ : HelperMapping) :: []).map
          (fun m => Ev.mapHelper m.helper m.template)
      ++ [Ev.setCurrentScreen "A"]
      ++ (if ((some opts0).bind
            (fun o => o.shouldUpdateBrowserHistory)).getD true
            then [Ev.pushHistory] else [])
      ++ (if ((some opts0).bind (fun o => o.shouldUpdateNavStack)).getD true
            then navStackEvs cfg0 env0 screenA.title else [])
    ∧ (toScreen cfg0 env0 st0 "A" (some opts0)).render =
      (match screenA.title with
       | .str t => [Ev.setTitle t]
       | .fn fid =>
         match env0.titleFn fid with
         | some t => [Ev.setTitle t]
         | none => [])
      ++ (if screenA.after then [Ev.screenAfter] else [])
      ++ (if cfg0.afterScreens then [Ev.globalAfter] else [])) :=
  ⟨⟨by decide, by decide, by decide, by decide⟩,
    c1_amended_order cfg0 env0 st0 "A" (some opts0) screenA
      ⟨"content", "a_tpl"⟩ [] (by decide) (by decide) (by decide) (by decide)⟩

/-- C2: for every registered screen name (registration enforces a
non-empty name), if the current-screen observable already equals the
name, `toScreen` returns false and leaves the whole state — every
observable, the navigation stack and the browser history — unchanged,
performing no effects. -/
theorem c2_toScreen_noop (cfg : Config) (env : Env) (st : NavState)
    (name : String) (opts : Option TSOptions)
    (hname : ¬(name = ""))
    (hreg : (st.screens.find? (fun s => s.name == name)).isSome)
    (hcur : st.currentScreen = some name) :
    toScreen cfg env st name opts = ⟨some false, st, [], []⟩ := by
  obtain ⟨scr, hscr⟩ := Option.isSome_iff_exists.mp hreg
  unfold toScreen
  rw [if_neg hname, hscr]
  dsimp only
  rw [if_pos hcur]

/-- Witness for `c2_toScreen_noop` at a concrete input. -/
theorem c2_toScreen_noop_witness :
    (¬("B" = "") ∧
      (st0.screens.find? (fun s => s.name == "B")).isSome ∧
      st0.currentScreen = some "B") ∧
    toScreen cfg0 env0 st0 "B" (some opts0) = ⟨some false, st0, [], []⟩ :=
  ⟨⟨by decide, by decide, by decide⟩,
    c2_toScreen_noop cfg0 env0 st0 "B" (some opts0)
      (by decide) (by decide) (by decide)⟩

/-- C3: the sid of each pushed history entry is 1 on the first push and
increases by one on each later push, as claimed; but the code attaches a
`screenData` key to EVERY entry — `toScreen` passes the `screenData`
`ReactiveVar` object itself, which is always truthy — even when no screen
data was supplied for the navigation, contradicting the claim that the
key is present only when data was supplied (and that it holds the
supplied object).  Shown here by two forward navigations that supply no
options at all. -/
theorem c3_history_screendata_bug :
    (toScreen cfg0 env0 (toScreen cfg0 env0 st0 "A" none).st "B" none).st.browserHistory =
      [⟨1, "A", some SDVal.rvar⟩, ⟨2, "B", some SDVal.rvar⟩] := by
  decide

/-- The value a title produces synchronously: a string title itself, or
the current value of a title function. -/
def titleNow (env : Env) (t : TitleVal) : Option String :=
  match t with
  | .str s => some s
  | .fn fid => env.titleFn fid

/-- On the success path, `toScreen` returns true, sets the current-screen
observable to the name, and leaves the screen-data observable holding the
supplied data (or the cleared empty object). -/
theorem toScreen_success_core (cfg : Config) (env : Env) (st : NavState)
    (name : String) (opts : Option TSOptions) (scr : Screen)
    (m0 : HelperMapping) (ms : List HelperMapping)
    (hname : ¬(name = ""))
    (hfind : st.screens.find? (fun s => s.name == name) = some scr)
    (hcur : ¬(st.currentScreen = some name))
    (hchm : scr.contentHelperMap = m0 :: ms) :
    (toScreen cfg env st name opts).ret = some true ∧
    (toScreen cfg env st name opts).st.currentScreen = some name ∧
    (toScreen cfg env st name opts).st.screenData =
      (opts.bind (fun o => o.screenData)).getD SDVal.emptyObj := by
  unfold toScreen
  rw [if_neg hname, hfind]
  dsimp only
  rw [if_neg hcur, hchm]
  dsimp only
  refine ⟨rfl, ?_, ?_⟩ <;>
  · unfold updateNavStack updateBrowserHistory
    repeat' split
    all_goals rfl

/-- When the options suppress the nav-stack update, the success path of
`toScreen` leaves the navigation stack and the stack-length observable
untouched. -/
theorem toScreen_success_noStackUpdate (cfg : Config) (env : Env)
    (st : NavState) (name : String) (opts : Option TSOptions) (scr : Screen)
    (m0 : HelperMapping) (ms : List HelperMapping)
    (hname : ¬(name = ""))
    (hfind : st.screens.find? (fun s => s.name == name) = some scr)
    (hcur : ¬(st.currentScreen = some name))
    (hchm : scr.contentHelperMap = m0 :: ms)
    (hns : (opts.bind (fun o => o.shouldUpdateNavStack)).getD true = false) :
    (toScreen cfg env st name opts).st.navStack = st.navStack ∧
    (toScreen cfg env st name opts).st.navStackLength = st.navStackLength := by
  unfold toScreen
  rw [if_neg hname, hfind]
  dsimp only
  rw [if_neg hcur, hchm]
  dsimp only
  rw [hns]
  simp only [Bool.false_eq_true, if_false]
  constructor <;>
  · unfold updateBrowserHistory
    repeat' split
    all_goals rfl

/-- In app mode, with the nav-stack update enabled and a title that
resolves synchronously, the success path of `toScreen` pushes one stack
entry (carrying the `screenData` `ReactiveVar`) and republishes the
length. -/
theorem updateNavStack_push (cfg : Config) (env : Env) (name : String)
    (title : TitleVal) (sd : Option SDVal) (st : NavState) (t : String)
    (happ : inAppMode cfg = true) (ht : titleNow env title = some t) :
    (updateNavStack cfg env name title sd st).1 =
      { st with navStack := st.navStack ++ [⟨name, t, sd⟩]
                navStackLength := st.navStack.length + 1 } := by
  unfold updateNavStack
  rw [happ]
  cases title with
  | str s =>
    simp only [titleNow, Option.some.injEq] at ht
    subst ht
    simp
  | fn fid =>
    simp only [titleNow] at ht
    simp [ht]

theorem toScreen_success_stackPush (cfg : Config) (env : Env)
    (st : NavState) (name : String) (opts : Option TSOptions) (scr : Screen)
    (m0 : HelperMapping) (ms : List HelperMapping) (t : String)
    (hname : ¬(name = ""))
    (hfind : st.screens.find? (fun s => s.name == name) = some scr)
    (hcur : ¬(st.currentScreen = some name))
    (hchm : scr.contentHelperMap = m0 :: ms)
    (happ : inAppMode cfg = true)
    (hns : (opts.bind (fun o => o.shouldUpdateNavStack)).getD true = true)
    (htitle : titleNow env scr.title = some t) :
    (toScreen cfg env st name opts).st.navStack =
      st.navStack ++ [⟨name, t, some SDVal.rvar⟩] ∧
    (toScreen cfg env st name opts).st.navStackLength =
      st.navStack.length + 1 := by
  unfold toScreen
  rw [if_neg hname, hfind]
  dsimp only
  rw [if_neg hcur, hchm]
  dsimp only
  rw [hns]
  simp only [if_pos rfl]
  constructor <;>
  · unfold updateBrowserHistory
    repeat' split
    all_goals simp_all [updateNavStack_push cfg env name scr.title
      (some SDVal.rvar) _ t happ htitle]

/-- C4: in app mode (where `run` has forced `supportUrls` off), `back`
with a single-entry stack returns false and leaves the state untouched;
with at least two entries it pops exactly one entry, republishes the
stack length, and re-enters the screen named by the new top entry —
passing that entry's screenData along — without re-pushing the stack. -/
theorem c4_back_app_mode (cfg : Config) (env : Env) (st : NavState)
    (_hApp : inAppMode cfg = true) (hUrls : cfg.supportUrls = false) :
    (st.navStack.length = 1 → back cfg env st = (some false, st)) ∧
    (∀ pre e2 e1 scr m0 ms, st.navStack = pre ++ [e2, e1] →
      ¬(e2.name = "") →
      st.screens.find? (fun s => s.name == e2.name) = some scr →
      scr.contentHelperMap = m0 :: ms →
      ¬(st.currentScreen = some e2.name) →
      (back cfg env st).1 = some true ∧
      (back cfg env st).2.navStack = pre ++ [e2] ∧
      (back cfg env st).2.navStackLength = (pre ++ [e2]).length ∧
      (back cfg env st).2.currentScreen = some e2.name ∧
      (back cfg env st).2.screenData = (e2.screenData).getD SDVal.emptyObj)
    := by
  constructor
  · intro hlen
    unfold back
    rw [if_neg (by rw [hUrls]; exact Bool.false_ne_true), if_pos hlen]
  · intro pre e2 e1 scr m0 ms hstack hname hfind hchm hcur
    have hsplit : st.navStack = (pre ++ [e2]) ++ [e1] := by
      rw [hstack]; simp
    have hlen : ¬(st.navStack.length = 1) := by
      rw [hstack]; simp
    have hdrop : st.navStack.dropLast = pre ++ [e2] := by
      rw [hsplit, List.dropLast_concat]
    have hlast : st.navStack.dropLast.getLast? = some e2 := by
      rw [hdrop]; exact List.getLast?_concat _
    unfold back
    rw [if_neg (by rw [hUrls]; exact Bool.false_ne_true), if_neg hlen]
    dsimp only
    rw [hlast, hdrop]
    dsimp only
    set st1 : NavState :=
      { st with navStack := pre ++ [e2], navStackLength := (pre ++ [e2]).length }
      with hst1
    have hfind1 : st1.screens.find? (fun s => s.name == e2.name) = some scr := hfind
    have hcur1 : ¬(st1.currentScreen = some e2.name) := hcur
    have hcore := toScreen_success_core cfg env st1 e2.name
      (some ⟨none, some false, e2.screenData⟩) scr m0 ms hname hfind1 hcur1 hchm
    have hstay := toScreen_success_noStackUpdate cfg env st1 e2.name
      (some ⟨none, some false, e2.screenData⟩) scr m0 ms hname hfind1 hcur1 hchm
      (by rfl)
    refine ⟨?_, ?_, ?_, ?_, ?_⟩
    · rw [hcore.1]; rfl
    · exact hstay.1
    · exact hstay.2
    · exact hcore.2.1
    · rw [hcore.2.2]; rfl

/-- An app-mode configuration (as `run` leaves it: `supportUrls` and
`useBrowserBackAndForward` forced off). -/
def cfgApp : Config :=
  { contentHelpers := ["content"], supportUrls := false
    inAppModeOnIos := true, inAppModeOnAndroid := false
    beforeScreens := false, afterScreens := false
    conditionsToWaitFor := [("okToLoad", [0]), ("okToReload", [1])] }

/-- A nav-stack entry for screen "A". -/
def entryA : StackEntry := ⟨"A", "A title", none⟩

/-- A nav-stack entry for screen "B". -/
def entryB : StackEntry := ⟨"B", "B title", none⟩

/-- An app-mode state on screen "B" with a two-entry stack. -/
def stApp : NavState :=
  { screens := [screenA, screenB], pathLookup := []
    currentScreen := some "B", screenData := SDVal.emptyObj
    navStack := [entryA, entryB], navStackLength := 2, isLoading := false
    helperVals := [], browserHistory := [] }

/-- Witness for `c4_back_app_mode` at a concrete input. -/
theorem c4_back_app_mode_witness :
    (inAppMode cfgApp = true ∧ cfgApp.supportUrls = false ∧
      stApp.navStack = [] ++ [entryA, entryB] ∧
      ¬(entryA.name = "") ∧
      stApp.screens.find? (fun s => s.name == entryA.name) = some screenA ∧
      screenA.contentHelperMap = (⟨"content", "a_tpl"⟩ : HelperMapping) :: [] ∧
      ¬(stApp.currentScreen = some entryA.name)) ∧
    ((back cfgApp env0 stApp).1 = some true ∧
      (back cfgApp env0 stApp).2.navStack = [] ++ [entryA] ∧
      (back cfgApp env0 stApp).2.navStackLength = ([] ++ [entryA]).length ∧
      (back cfgApp env0 stApp).2.currentScreen = some entryA.name ∧
      (back cfgApp env0 stApp).2.screenData =
        (entryA.screenData).getD SDVal.emptyObj) :=
  ⟨⟨by decide, by decide, by decide, by decide, by decide, by decide,
     by decide⟩,
   (c4_back_app_mode cfgApp env0 stApp (by decide) (by decide)).2
     [] entryA entryB screenA ⟨"content", "a_tpl"⟩ []
     (by decide) (by decide) (by decide) (by decide) (by decide)⟩

/-- The "Home" screen fixture. -/
def screenH : Screen :=
  { name := "Home", contentHelperMap := [⟨"content", "home_tpl"⟩]
    title := TitleVal.str "Home", path := none, pathMask := none
    pathPattern := none, generatePath := none, getDataFromParams := none
    isAllowed := AllowVal.bool true, before := false, after := false }

/-- An app-mode state that is already on the "Home" screen with a
two-entry stack. -/
def stHome : NavState :=
  { screens := [screenH, screenB], pathLookup := []
    currentScreen := some "Home", screenData := SDVal.emptyObj
    navStack := [⟨"Home", "Home", none⟩, entryB], navStackLength := 2
    isLoading := false, helperVals := [], browserHistory := [] }

/-- C5 (counterexample): calling `resetNavStack("Home")` while "Home" is
already the current screen clears the stack, but the inner `toScreen`
call is a no-op, so the stack is NOT reseeded with the named screen and
the stack-length observable keeps its stale value 2 while the stack is
empty — refuting the claim that the stack afterwards contains the named
screen and that the length observable reflects the new length. -/
theorem c5_reset_counterexample :
    (resetNavStack cfgApp env0 "Home" stHome).map
      (fun s => (s.navStack, s.navStackLength, s.currentScreen)) =
    some ([], 2, some "Home") := by
  decide

/-- C5 (amended): in app mode, for a registered screen name that differs
from the current screen and whose title resolves synchronously,
`resetNavStack(name)` clears the stack and re-enters at the name, so
afterwards the stack holds exactly the one named entry and the
stack-length observable is 1; when the name equals the current screen the
stack is merely cleared (the re-entry no-ops) and the length observable
keeps its previous value. -/
theorem c5_reset_amended (cfg : Config) (env : Env) (st : NavState)
    (name : String) (scr : Screen) (m0 : HelperMapping)
    (ms : List HelperMapping) (t : String)
    (happ : inAppMode cfg = true)
    (hname : ¬(name = ""))
    (hfind : st.screens.find? (fun s => s.name == name) = some scr)
    (hchm : scr.contentHelperMap = m0 :: ms)
    (hcur : ¬(st.currentScreen = some name))
    (htitle : titleNow env scr.title = some t) :
    ∃ st2, resetNavStack cfg env name st = some st2 ∧
      st2.navStack = [⟨name, t, some SDVal.rvar⟩] ∧
      st2.navStackLength = 1 ∧
      st2.currentScreen = some name := by
  unfold resetNavStack
  rw [happ]
  simp only [if_pos rfl]
  set st1 : NavState := { st with navStack := ([] : List StackEntry) }
    with hst1
  have hfind1 : st1.screens.find? (fun s => s.name == name) = some scr := hfind
  have hcur1 : ¬(st1.currentScreen = some name) := hcur
  have hcore := toScreen_success_core cfg env st1 name none scr m0 ms
    hname hfind1 hcur1 hchm
  have hpush := toScreen_success_stackPush cfg env st1 name none scr m0 ms t
    hname hfind1 hcur1 hchm happ (by rfl) htitle
  refine ⟨(toScreen cfg env st1 name none).st, ?_, ?_, ?_, ?_⟩
  · rw [hcore.1]; simp
  · rw [hpush.1]; simp [hst1]
  · rw [hpush.2]; simp [hst1]
  · exact hcore.2.1

/-- An app-mode state on screen "B" whose registry contains "Home". -/
def stHome2 : NavState :=
  { screens := [screenH, screenB], pathLookup := []
    currentScreen := some "B", screenData := SDVal.emptyObj
    navStack := [entryB], navStackLength := 1
    isLoading := false, helperVals := [], browserHistory := [] }

/-- Witness for `c5_reset_amended` at a concrete input. -/
theorem c5_reset_amended_witness :
    (inAppMode cfgApp = true ∧ ¬("Home" = "") ∧
      stHome2.screens.find? (fun s => s.name == "Home") = some screenH ∧
      screenH.contentHelperMap =
        (⟨"content", "home_tpl"⟩ : HelperMapping) :: [] ∧
      ¬(stHome2.currentScreen = some "Home") ∧
      titleNow env0 screenH.title = some "Home") ∧
    (∃ st2, resetNavStack cfgApp env0 "Home" stHome2 = some st2 ∧
      st2.navStack = [⟨"Home", "Home", some SDVal.rvar⟩] ∧
      st2.navStackLength = 1 ∧
      st2.currentScreen = some "Home") :=
  ⟨⟨by decide, by decide, by decide, by decide, by decide, by decide⟩,
   c5_reset_amended cfgApp env0 stHome2 "Home" screenH
     ⟨"content", "home_tpl"⟩ [] "Home"
     (by decide) (by decide) (by decide) (by decide) (by decide) (by decide)⟩

/-!
## Claims about the screen registry -/

/-- The failure condition of `registerScreen` exactly as the specification
states it: the name is empty or not a string, a required field
(`contentHelperMap`, `title`) is missing or of the wrong type (an absent
options object leaves them missing), `path` or `pathMask` is present
without a `pathPattern`, `pathMask` is present without both `generatePath`
and `getDataFromParams`, or the name already exists. -/
def c6ClaimFails (screens : List Screen) (name : NameArg)
    (opts : Option RegOptions) : Bool :=
  match opts with
  | none => true
  | some o =>
    match name with
    | .notStr => true
    | .str n =>
      (n == "")
      || !(chmOk o.contentHelperMap)
      || !(titleOk o.title)
      || (jfPresent o.path && !(jfPresent o.pathPattern))
      || (jfPresent o.pathMask
          && !(jfPresent o.pathPattern && jfPresent o.generatePath
               && jfPresent o.getDataFromParams))
      || screens.any (fun s => s.name == n)

/-- The amended failure condition: the specification's list, plus the
clause it is missing — the registration also fails when any optional
field (`path`, `pathMask`, `pathPattern`, `generatePath`,
`getDataFromParams`, `isAllowed`, `before`, `after`) is present but of a
type its match pattern rejects (`path`/`pathMask` must be non-empty
strings). -/
def c6AmendedFails (screens : List Screen) (name : NameArg)
    (opts : Option RegOptions) : Bool :=
  match opts with
  | none => true
  | some o =>
    match name with
    | .notStr => true
    | .str n =>
      (n == "")
      || !(chmOk o.contentHelperMap)
      || !(titleOk o.title)
      || !(optFieldsOk o)
      || (jfPresent o.path && !(jfPresent o.pathPattern))
      || (jfPresent o.pathMask
          && !(jfPresent o.pathPattern && jfPresent o.generatePath
               && jfPresent o.getDataFromParams))
      || screens.any (fun s => s.name == n)

/-- A well-typed optional string field is truthy exactly when it is
present. -/
theorem strTruthy_of_ok (f : JField String) (h : jfOptStrOk f = true) :
    jfStrTruthy f = jfPresent f := by
  cases f with
  | absent => rfl
  | val s =>
    simp only [jfOptStrOk] at h
    simp [jfStrTruthy, jfPresent, h]
  | wrongType => exact absurd h (by simp [jfOptStrOk])

/-- A well-typed optional RegExp or function field is truthy exactly when
it is present. -/
theorem truthy_of_ok {α : Type} (f : JField α) (h : jfOptOk f = true) :
    jfTruthy f = jfPresent f := by
  cases f with
  | absent => rfl
  | val a => rfl
  | wrongType => exact absurd h (by simp [jfOptOk])

/-- The code's failure condition coincides with the amended
specification's failure condition. -/
theorem regChecksFail_eq_amended (screens : List Screen) (n : String)
    (o : RegOptions) :
    regChecksFail screens (.str n) (some o) =
      c6AmendedFails screens (.str n) (some o) := by
  unfold regChecksFail c6AmendedFails
  dsimp only
  by_cases hok : optFieldsOk o = true
  · have h1 : jfOptStrOk o.path = true := by
      have h := hok; simp [optFieldsOk, Bool.and_eq_true] at h; tauto
    have h2 : jfOptStrOk o.pathMask = true := by
      have h := hok; simp [optFieldsOk, Bool.and_eq_true] at h; tauto
    have h3 : jfOptOk o.pathPattern = true := by
      have h := hok; simp [optFieldsOk, Bool.and_eq_true] at h; tauto
    have h4 : jfOptOk o.generatePath = true := by
      have h := hok; simp [optFieldsOk, Bool.and_eq_true] at h; tauto
    have h5 : jfOptOk o.getDataFromParams = true := by
      have h := hok; simp [optFieldsOk, Bool.and_eq_true] at h; tauto
    rw [strTruthy_of_ok o.path h1, strTruthy_of_ok o.pathMask h2,
      truthy_of_ok o.pathPattern h3, truthy_of_ok o.generatePath h4,
      truthy_of_ok o.getDataFromParams h5]
    cases hP : jfPresent o.path <;> cases hM : jfPresent o.pathMask <;>
      cases hPt : jfPresent o.pathPattern <;>
      cases hG : jfPresent o.generatePath <;>
      cases hD : jfPresent o.getDataFromParams <;> simp
  · have hokf : optFieldsOk o = false := by
      cases hcase : optFieldsOk o
      · rfl
      · exact absurd hcase hok
    rw [hokf]
    simp

/-- C6 (counterexample): an options object whose optional `isAllowed`
field carries a value of the wrong type is rejected by the code, yet the
specification's stated failure list does not cover it. -/
def oBadAllow : RegOptions :=
  { contentHelperMap := .val [⟨"content", "x_tpl"⟩], title := .val (.str "X")
    path := .absent, pathMask := .absent, pathPattern := .absent
    generatePath := .absent, getDataFromParams := .absent
    isAllowed := .wrongType, before := .absent, after := .absent }

/-- C6 (counterexample): `registerScreen` throws on `oBadAllow` although
the claim's "exactly when" list says this input should succeed. -/
theorem c6_claim_counterexample :
    registerScreen [] [] (.str "X") (some oBadAllow) = none ∧
    c6ClaimFails [] (.str "X") (some oBadAllow) = false := by
  decide

/-- C6 (amended): `registerScreen(name, spec)` fails (synchronously, with
nothing added to the registry) exactly when the specification's list
holds or some optional field is present with a type its match pattern
rejects; in all other cases it succeeds. -/
theorem c6_register_fail_iff (screens : List Screen) (pl : List PathEntry)
    (name : NameArg) (opts : Option RegOptions) :
    (registerScreen screens pl name opts = none) ↔
      c6AmendedFails screens name opts = true := by
  cases opts with
  | none => simp [registerScreen, regChecksFail, c6AmendedFails]
  | some o =>
    cases name with
    | notStr => simp [registerScreen, regChecksFail, c6AmendedFails]
    | str n =>
      unfold registerScreen
      rw [regChecksFail_eq_amended]
      by_cases h : c6AmendedFails screens (.str n) (some o) = true
      · simp [h]
      · simp [h]

/-- C7: a successful registration appends exactly one screen whose
`isAllowed` equals the supplied value whenever the field was supplied
(including the boolean false — the `options.isAllowed || true` default is
overwritten by the `_.extend` that follows) and defaults to "always
allowed" when omitted; and a routing entry is appended to `pathLookup`
exactly when the options carry a `path` or a `pathMask`. -/
theorem c7_register_isAllowed_routing (screens : List Screen)
    (pl : List PathEntry) (n : String) (o : RegOptions)
    (scr2 : List Screen) (pl2 : List PathEntry)
    (h : registerScreen screens pl (.str n) (some o) = some (scr2, pl2)) :
    scr2 = screens ++ [mkScreen n o] ∧
    (∀ a, o.isAllowed = JField.val a → (mkScreen n o).isAllowed = a) ∧
    (o.isAllowed = JField.absent →
      (mkScreen n o).isAllowed = AllowVal.bool true) ∧
    (if jfPresent o.path || jfPresent o.pathMask
      then pl2 = pl ++ [⟨n, jfToOption o.pathPattern⟩]
      else pl2 = pl) := by
  unfold registerScreen at h
  by_cases hf : regChecksFail screens (.str n) (some o) = true
  · rw [if_pos hf] at h
    exact absurd h (by simp)
  · rw [if_neg hf] at h
    dsimp only at h
    have hopt : optFieldsOk o = true := by
      by_contra hno
      have hoptf : optFieldsOk o = false := by
        cases hc : optFieldsOk o
        · rfl
        · exact absurd hc hno
      have : regChecksFail screens (.str n) (some o) = true := by
        unfold regChecksFail
        dsimp only
        simp [hoptf]
      exact hf this
    have h1 : jfOptStrOk o.path = true := by
      have hx := hopt; simp [optFieldsOk, Bool.and_eq_true] at hx; tauto
    have h2 : jfOptStrOk o.pathMask = true := by
      have hx := hopt; simp [optFieldsOk, Bool.and_eq_true] at hx; tauto
    have hpair := Option.some.inj h
    injection hpair with hs hp
    subst hs
    subst hp
    refine ⟨rfl, ?_, ?_, ?_⟩
    · intro a ha
      simp [mkScreen, ha]
    · intro ha
      simp [mkScreen, ha]
    · rw [← strTruthy_of_ok o.path h1, ← strTruthy_of_ok o.pathMask h2]
      by_cases hc : (jfStrTruthy o.path || jfStrTruthy o.pathMask) = true
      · simp [hc]
      · have hcf : (jfStrTruthy o.path || jfStrTruthy o.pathMask) = false := by
          cases hx : (jfStrTruthy o.path || jfStrTruthy o.pathMask)
          · rfl
          · exact absurd hx hc
        simp [hcf]

/-- A valid options object supplying `isAllowed: false` and a literal
path. -/
def oGood : RegOptions :=
  { contentHelperMap := .val [⟨"content", "p_tpl"⟩], title := .val (.str "P")
    path := .val "/p", pathMask := .absent, pathPattern := .val 3
    generatePath := .absent, getDataFromParams := .absent
    isAllowed := .val (AllowVal.bool false), before := .absent
    after := .absent }

/-- Witness for `c7_register_isAllowed_routing` at a concrete input. -/
theorem c7_register_isAllowed_routing_witness :
    registerScreen [] [] (.str "P") (some oGood) =
      some ([mkScreen "P" oGood], [⟨"P", jfToOption oGood.pathPattern⟩]) ∧
    ([mkScreen "P" oGood] = [] ++ [mkScreen "P" oGood] ∧
      (∀ a, oGood.isAllowed = JField.val a →
        (mkScreen "P" oGood).isAllowed = a) ∧
      (oGood.isAllowed = JField.absent →
        (mkScreen "P" oGood).isAllowed = AllowVal.bool true) ∧
      (if jfPresent oGood.path || jfPresent oGood.pathMask
        then [⟨"P", jfToOption oGood.pathPattern⟩] =
          [] ++ [(⟨"P", jfToOption oGood.pathPattern⟩ : PathEntry)]
        else [⟨"P", jfToOption oGood.pathPattern⟩] = ([] : List PathEntry))) :=
  ⟨by decide,
   c7_register_isAllowed_routing [] [] "P" oGood
     [mkScreen "P" oGood] [⟨"P", jfToOption oGood.pathPattern⟩] (by decide)⟩

/-!
## Claims about access control and the condition waiter -/

/-- The "Secret" screen fixture. -/
def screenS : Screen :=
  { name := "Secret", contentHelperMap := [⟨"content", "secret_tpl"⟩]
    title := TitleVal.str "Secret", path := some "/secret", pathMask := none
    pathPattern := some 4, generatePath := none, getDataFromParams := none
    isAllowed := AllowVal.bool false, before := false, after := false }

/-- The "Access Denied" screen fixture. -/
def screenAD : Screen :=
  { name := "Access Denied", contentHelperMap := [⟨"content", "denied_tpl"⟩]
    title := TitleVal.str "Denied", path := none, pathMask := none
    pathPattern := none, generatePath := none, getDataFromParams := none
    isAllowed := AllowVal.bool true, before := false, after := false }

/-- A browser-mode state with an existing history entry for another
screen. -/
def st8 : NavState :=
  { screens := [screenS, screenAD], pathLookup := []
    currentScreen := some "Elsewhere", screenData := SDVal.emptyObj
    navStack := [], navStackLength := 0, isLoading := false
    helperVals := [], browserHistory := [⟨1, "Other", none⟩] }

/-- The same state with no history state (a first load in a new tab). -/
def st8e : NavState :=
  { st8 with browserHistory := [] }

/-- C8: access-control routing evaluated on concrete inputs.  Denial — a
plain false boolean, or a predicate returning false (anonymous session) —
routes to the "Access Denied" screen, and an allowed screen is loaded with
its resolved screen data when a history state naming another screen
exists.  But on a first load (no history state), the allow path THROWS
instead of loading the requested screen: `loadTargetScreenInBrowserMode`
calls `waitForCondition('okToLoad', cb)` without the required
`showLoading` argument, and `check(showLoading, Boolean)` raises before
`toScreen` can run — contradicting the claim that an allowed screen is
loaded. -/
theorem c8_access_control_eval :
    (isScreenAllowed cfg0 env0 st8
        ⟨"Secret", some (AllowVal.bool false), none⟩).map
      (fun s => s.currentScreen) = some (some "Access Denied") ∧
    (isScreenAllowed cfg0 env0 st8
        ⟨"Secret", some (AllowVal.fn 0), none⟩).map
      (fun s => s.currentScreen) = some (some "Access Denied") ∧
    (isScreenAllowed cfg0 env0 st8
        ⟨"Secret", some (AllowVal.bool true), some sd0⟩).map
      (fun s => (s.currentScreen, s.screenData)) =
      some (some "Secret", sd0) ∧
    isScreenAllowed cfg0 env0 st8e
      ⟨"Secret", some (AllowVal.bool true), some sd0⟩ = none := by
  decide

/-- The condition table fixture for the waiter. -/
def tbl9 : List (String × List Nat) := [("okToLoad", [0]), ("okToReload", [1])]

/-- A valuation under which every predicate returns false. -/
def vF : Nat → CondRes := fun _ => CondRes.fls

/-- A valuation under which every predicate is truthy. -/
def vT : Nat → CondRes := fun _ => CondRes.truthy

/-- C9: the waiter evaluated on concrete runs.  While the condition is
unsatisfied the callback is never invoked; once a recomputation finds it
satisfied the callback runs exactly once and the computation stops (later
satisfied rounds add nothing).  But when a context is supplied the source
runs `func().bind(context)`: the callback is still invoked exactly once
WITHOUT the context (its this-binding is never set), and a TypeError
follows when its return value is not a function — contradicting the
claim that the context is passed.  A fourth conjunct records that
omitting `showLoading` (as every internal caller does) makes the call
throw before any observation. -/
theorem c9_waitForCondition_eval :
    (waitForCondition tbl9 (.condId "okToLoad") true true (some false) none
        [vF, vF, vF]).map (fun o => o.funcCalls) = some [] ∧
    (waitForCondition tbl9 (.condId "okToLoad") true true (some false) none
        [vF, vT, vT, vT]).map (fun o => (o.funcCalls, o.stopped)) =
      some ([none], true) ∧
    (waitForCondition tbl9 (.fnCond 0) true false (some false) (some 7)
        [vT]).map (fun o => (o.funcCalls, o.lateError)) =
      some ([none], true) ∧
    waitForCondition tbl9 (.condId "okToLoad") true true none none [vT] =
      none := by
  decide

/-!
## The previous-title accessor -/

/-- C10: under the coupling invariant that the stack-length observable
mirrors the actual stack length, `getPreviousTitle` returns the title of
the entry directly below the top of the navigation stack when in app mode
with more than one entry; in every other case (not app mode, or at most
one entry) it returns false without reading any stack entry — the result
is the same for every stack content. -/
theorem c10_getPreviousTitle (cfg : Config) (st : NavState)
    (hsync : st.navStackLength = st.navStack.length) :
    (∀ pre e2 e1, inAppMode cfg = true → st.navStack = pre ++ [e2, e1] →
      getPreviousTitle cfg st = some (.title e2.title)) ∧
    (inAppMode cfg = false ∨ st.navStackLength ≤ 1 →
      getPreviousTitle cfg st = some .noPrevious ∧
      ∀ stack2, getPreviousTitle cfg { st with navStack := stack2 } =
        some .noPrevious) := by
  constructor
  · intro pre e2 e1 happ hstack
    unfold getPreviousTitle
    rw [happ]
    simp only [if_pos rfl]
    have hlen2 : st.navStackLength = pre.length + 2 := by
      rw [hsync, hstack]; simp
    rw [hlen2]
    have hgt : pre.length + 2 > 1 := by omega
    rw [if_pos hgt]
    have hidx : st.navStack.get? (pre.length + 2 - 2) = some e2 := by
      rw [hstack]
      have he : pre.length + 2 - 2 = pre.length := by omega
      rw [he]
      rw [List.get?_eq_getElem?, List.getElem?_append_right (le_refl _)]
      simp
    rw [hidx]
    simp
  · intro hcase
    rcases hcase with happ | hlen
    · constructor
      · unfold getPreviousTitle
        rw [happ]
        simp
      · intro stack2
        unfold getPreviousTitle
        rw [happ]
        simp
    · have hngt : ¬(st.navStackLength > 1) := by omega
      constructor
      · unfold getPreviousTitle
        by_cases happ2 : inAppMode cfg = true
        · rw [happ2]
          simp only [if_pos rfl]
          rw [if_neg hngt]
          simp
        · have happf : inAppMode cfg = false := by
            cases hc : inAppMode cfg
            · rfl
            · exact absurd hc happ2
          rw [happf]
          simp
      · intro stack2
        unfold getPreviousTitle
        by_cases happ2 : inAppMode cfg = true
        · rw [happ2]
          simp only [if_pos rfl]
          rw [if_neg hngt]
          simp
        · have happf : inAppMode cfg = false := by
            cases hc : inAppMode cfg
            · rfl
            · exact absurd hc happ2
          rw [happf]
          simp

/-- Witness for `c10_getPreviousTitle` at concrete inputs: in app mode
with a two-entry stack it returns the lower entry's title; in browser
mode it returns false. -/
theorem c10_getPreviousTitle_witness :
    (stApp.navStackLength = stApp.navStack.length ∧
      inAppMode cfgApp = true ∧ stApp.navStack = [] ++ [entryA, entryB] ∧
      st0.navStackLength = st0.navStack.length ∧ inAppMode cfg0 = false) ∧
    getPreviousTitle cfgApp stApp = some (.title entryA.title) ∧
    getPreviousTitle cfg0 st0 = some .noPrevious :=
  ⟨⟨by decide, by decide, by decide, by decide, by decide⟩,
   (c10_getPreviousTitle cfgApp stApp (by decide)).1 [] entryA entryB
     (by decide) (by decide),
   ((c10_getPreviousTitle cfg0 st0 (by decide)).2 (Or.inl (by decide))).1⟩
